import Mathlib

/-!
# Verification of the tailorbase-dash order dashboard

A shallow embedding of the order-management client:
* the Order Form Controller (`EditOrder` in the order editor page): the zod
  validation schema, the reactively derived totals, the `fetchOrder` seeding
  of form state from fetched rows, and the three-step `onSubmit` write
  sequence against the remote table store;
* the dashboard statistics computation (`fetchStats`);
* the status-badge renderer (`getStatusBadge` of the orders list page).

JavaScript numbers are modelled as rationals (`ℚ`); the value `NaN`, which
can arise from `Number(x)` on a missing or non-numeric value, is modelled
explicitly as `Option ℚ` with `none` standing for NaN where it matters.
-/

/-- JS `a || b` for a numeric value `a` that may be NaN (`none`): NaN and `0`
are falsy, every other number is truthy. -/
def jsOrQ (a : Option ℚ) (b : ℚ) : ℚ :=
  match a with
  | none => b
  | some v => if v = 0 then b else v

/-- JS `s || d` for a string value `s` that may be null/undefined (`none`):
null, undefined and the empty string are falsy. -/
def jsOrStr (s : Option String) (d : String) : String :=
  match s with
  | none => d
  | some v => if v = "" then d else v

/-- A value read from a fetched row at runtime, as relevant to the numeric
coercions in `fetchOrder`: a number, SQL `null`, an absent field
(`undefined`), or a non-numeric string. -/
inductive FetchedVal where
  | num : ℚ → FetchedVal
  | nullVal : FetchedVal
  | missing : FetchedVal
  | nonNumericStr : String → FetchedVal
deriving DecidableEq

/-- JS `Number(x)` on a fetched value: numbers map to themselves, `null` to
`0`, `undefined` and non-numeric strings to NaN (`none`). -/
def jsNumberVal : FetchedVal → Option ℚ
  | .num q => some q
  | .nullVal => some 0
  | .missing => none
  | .nonNumericStr _ => none

/-- A line item of the order form (`order_items` entries of `OrderFormData`,
the type inferred from `orderSchema`): `quantity` and `unit_price` are
numbers, `meters`, `model`, `size` and the row `id` are optional. -/
structure OrderItemForm where
  id : Option String
  product_name : String
  model : Option String
  size : Option String
  quantity : ℚ
  meters : Option ℚ
  unit_price : ℚ
deriving DecidableEq

/-- The order form data (`OrderFormData` inferred from `orderSchema`);
`status` is kept as a string, validated against the three-value enumeration
by the schema. -/
structure OrderFormData where
  customer_name : String
  customer_phone : String
  status : String
  fabric_price : ℚ
  tailoring_price : ℚ
  extra_costs : ℚ
  tax_amount : ℚ
  notes : Option String
  order_items : List OrderItemForm
deriving DecidableEq

/-- `itemsTotal = watchedItems.reduce((sum, item) => sum + (item.quantity *
item.unit_price), 0)`. -/
def itemsTotal (watchedItems : List OrderItemForm) : ℚ :=
  watchedItems.foldl (fun sum item => sum + item.quantity * item.unit_price) 0

/-- `totalPieces = watchedItems.reduce((sum, item) => sum + item.quantity, 0)`. -/
def totalPieces (watchedItems : List OrderItemForm) : ℚ :=
  watchedItems.foldl (fun sum item => sum + item.quantity) 0

/-- `totalPrice = itemsTotal + (watchedPrices[0] || 0) + (watchedPrices[1] || 0)
+ (watchedPrices[2] || 0) + (watchedPrices[3] || 0)`; the four watched prices
are `fabric_price`, `tailoring_price`, `extra_costs`, `tax_amount`. -/
def totalPrice (watchedItems : List OrderItemForm) (w0 w1 w2 w3 : Option ℚ) : ℚ :=
  itemsTotal watchedItems + jsOrQ w0 0 + jsOrQ w1 0 + jsOrQ w2 0 + jsOrQ w3 0

theorem jsOrQ_some (v : ℚ) : jsOrQ (some v) 0 = v := by
  unfold jsOrQ
  split <;> simp_all

theorem foldl_add_eq_sum {α : Type} (g : α → ℚ) :
    ∀ (l : List α) (a : ℚ), l.foldl (fun s x => s + g x) a = a + (l.map g).sum := by
  intro l
  induction l with
  | nil => simp
  | cons x xs ih =>
    intro a
    simp [List.foldl_cons, ih, add_assoc]

theorem itemsTotal_eq_sum (items : List OrderItemForm) :
    itemsTotal items = (items.map (fun it => it.quantity * it.unit_price)).sum := by
  unfold itemsTotal
  rw [foldl_add_eq_sum (fun it => it.quantity * it.unit_price) items 0, zero_add]

theorem totalPieces_eq_sum (items : List OrderItemForm) :
    totalPieces items = (items.map (fun it => it.quantity)).sum := by
  unfold totalPieces
  rw [foldl_add_eq_sum (fun it => it.quantity) items 0, zero_add]

/-- First line item of the spec's worked example: `{qty:2, price:10}`. -/
def exampleItemA : OrderItemForm :=
  { id := none, product_name := "A", model := none, size := none,
    quantity := 2, meters := none, unit_price := 10 }

/-- Second line item of the spec's worked example: `{qty:1, price:5}`. -/
def exampleItemB : OrderItemForm :=
  { id := none, product_name := "B", model := none, size := none,
    quantity := 1, meters := none, unit_price := 5 }

/-- The two line items of the spec's worked example:
`[{qty:2, price:10}, {qty:1, price:5}]`. -/
def exampleItems : List OrderItemForm := [exampleItemA, exampleItemB]

/-- C1: for every list of line items and every quadruple of surcharge values,
`itemsTotal` is the sum of `quantity * unit_price` over the items,
`totalPieces` is the sum of the quantities, and `totalPrice` is `itemsTotal`
plus the four surcharges; at the spec's worked example (items
`[{qty:2, price:10}, {qty:1, price:5}]`, surcharges `fabric=3, tailoring=2,
extra=0, tax=1`) the controller computes `totalPieces = 3`,
`itemsTotal = 25`, `totalPrice = 31`. -/
theorem c1_derived_totals (items : List OrderItemForm) (f t e x : ℚ) :
    itemsTotal items = (items.map (fun it => it.quantity * it.unit_price)).sum ∧
    totalPieces items = (items.map (fun it => it.quantity)).sum ∧
    totalPrice items (some f) (some t) (some e) (some x) =
      itemsTotal items + f + t + e + x ∧
    totalPieces exampleItems = 3 ∧
    itemsTotal exampleItems = 25 ∧
    totalPrice exampleItems (some 3) (some 2) (some 0) (some 1) = 31 := by
  refine ⟨itemsTotal_eq_sum items, totalPieces_eq_sum items, ?_,
    by norm_num [totalPieces, exampleItems, exampleItemA, exampleItemB],
    by norm_num [itemsTotal, exampleItems, exampleItemA, exampleItemB],
    by norm_num [totalPrice, itemsTotal, exampleItems, exampleItemA, exampleItemB, jsOrQ]⟩
  unfold totalPrice
  rw [jsOrQ_some, jsOrQ_some, jsOrQ_some, jsOrQ_some]

/-- C9: permuting the line-item list (surcharges held fixed) leaves the three
derived values `itemsTotal`, `totalPieces` and `totalPrice` unchanged. -/
theorem c9_totals_permutation_invariant (l₁ l₂ : List OrderItemForm)
    (h : l₁.Perm l₂) (w0 w1 w2 w3 : Option ℚ) :
    itemsTotal l₁ = itemsTotal l₂ ∧
    totalPieces l₁ = totalPieces l₂ ∧
    totalPrice l₁ w0 w1 w2 w3 = totalPrice l₂ w0 w1 w2 w3 := by
  have hit : itemsTotal l₁ = itemsTotal l₂ := by
    rw [itemsTotal_eq_sum, itemsTotal_eq_sum]
    exact (h.map (fun it => it.quantity * it.unit_price)).sum_eq
  have hpc : totalPieces l₁ = totalPieces l₂ := by
    rw [totalPieces_eq_sum, totalPieces_eq_sum]
    exact (h.map (fun it => it.quantity)).sum_eq
  refine ⟨hit, hpc, ?_⟩
  unfold totalPrice
  rw [hit]

/-- Witness for C9 at a concrete transposition of the worked example's items. -/
theorem c9_totals_permutation_invariant_witness :
    itemsTotal [exampleItemA, exampleItemB] = itemsTotal [exampleItemB, exampleItemA] ∧
    totalPieces [exampleItemA, exampleItemB] = totalPieces [exampleItemB, exampleItemA] ∧
    totalPrice [exampleItemA, exampleItemB] (some 3) (some 2) (some 0) (some 1) =
      totalPrice [exampleItemB, exampleItemA] (some 3) (some 2) (some 0) (some 1) :=
  c9_totals_permutation_invariant _ _
    (List.Perm.swap exampleItemB exampleItemA [])
    (some 3) (some 2) (some 0) (some 1)

/-- A row of the `orders` table, with the columns the order editor reads or
writes (nullable columns are `Option`; `id` and `order_number` are set by the
backend and never written by the editor). -/
structure OrderRow where
  id : String
  order_number : String
  customer_name : String
  customer_phone : String
  status : Option String
  fabric_price : Option ℚ
  tailoring_price : Option ℚ
  extra_costs : Option ℚ
  tax_amount : Option ℚ
  total_pieces : Option ℚ
  total_price : ℚ
  notes : Option String
deriving DecidableEq

/-- A row of the `order_items` table. The `quantity` column is nullable in
the schema but every row this editor writes carries a number, and
`fetchOrder` passes it through unchanged; it is modelled as a number. -/
structure ItemRow where
  id : String
  order_id : Option String
  product_id : Option String
  product_name : String
  model : Option String
  size : Option String
  quantity : ℚ
  meters : Option ℚ
  unit_price : ℚ
  total_price : ℚ
deriving DecidableEq

/-- The remote table store as seen by the editor: the `orders` and
`order_items` tables. -/
structure DB where
  orders : List OrderRow
  order_items : List ItemRow
deriving DecidableEq

/-- The header fields written by step 1 of `onSubmit` onto a matching
`orders` row: customer fields, status, the derived totals, the four
surcharges and the notes. A `notes` value of `undefined` is dropped from the
update payload by JSON serialization, leaving the stored column unchanged. -/
def updatedHeader (r : OrderRow) (d : OrderFormData) : OrderRow :=
  { r with
    customer_name := d.customer_name
    customer_phone := d.customer_phone
    status := some d.status
    total_pieces := some (totalPieces d.order_items)
    total_price := totalPrice d.order_items (some d.fabric_price)
      (some d.tailoring_price) (some d.extra_costs) (some d.tax_amount)
    fabric_price := some d.fabric_price
    tailoring_price := some d.tailoring_price
    extra_costs := some d.extra_costs
    tax_amount := some d.tax_amount
    notes := match d.notes with
      | some s => some s
      | none => r.notes }

/-- Step 1: `supabase.from('orders').update({...}).eq('id', id)` — update
every `orders` row whose `id` equals the edited order's identifier. -/
def applyHeaderUpdate (db : DB) (oid : String) (d : OrderFormData) : DB :=
  { db with orders := db.orders.map (fun r => if r.id = oid then updatedHeader r d else r) }

/-- Step 2: `supabase.from('order_items').delete().eq('order_id', id)` —
delete every `order_items` row whose `order_id` equals the order's
identifier. -/
def deleteOrderItems (db : DB) (oid : String) : DB :=
  { db with order_items := db.order_items.filter (fun r => !decide (r.order_id = some oid)) }

/-- The rows built for step 3 from the submitted line items: each row gets
the order's identifier, the item's fields, and a `total_price` recomputed as
`quantity * unit_price`; the backend assigns each inserted row a fresh
identifier, supplied here as the list `ids`. -/
def newItemRows (oid : String) (items : List OrderItemForm) (ids : List String) :
    List ItemRow :=
  (items.zip ids).map (fun p =>
    { id := p.2
      order_id := some oid
      product_id := none
      product_name := p.1.product_name
      model := p.1.model
      size := p.1.size
      quantity := p.1.quantity
      meters := p.1.meters
      unit_price := p.1.unit_price
      total_price := p.1.quantity * p.1.unit_price })

/-- Step 3: `supabase.from('order_items').insert(orderItems)` — append the
new rows to the `order_items` table. -/
def insertOrderItems (db : DB) (rows : List ItemRow) : DB :=
  { db with order_items := db.order_items ++ rows }

/-- The writes `onSubmit` can apply, in the order it issues them. -/
inductive WriteOp where
  | updateOrder : WriteOp
  | deleteItems : WriteOp
  | insertItems : WriteOp
deriving DecidableEq

/-- The observable outcome of a submission attempt: the store after it, the
writes that were applied (in order), whether the destructive failure toast
or the success toast was shown, the navigation target, and the field-level
validation errors reported without any network call. -/
structure SubmitEffects where
  db : DB
  writes : List WriteOp
  errorToast : Bool
  successToast : Bool
  navigatedTo : Option String
  fieldErrors : List (String × String)
deriving DecidableEq

/-- `onSubmit`: the three-step write sequence of the order editor. Each
`fail*` flag says whether the corresponding remote call returns an error; an
erroring call applies nothing, the `throw` skips the remaining steps, and
the catch branch shows the destructive toast. Nothing already applied is
undone. On full success the success toast is shown and the editor navigates
back to the orders list. -/
def onSubmit (db : DB) (oid : String) (d : OrderFormData) (ids : List String)
    (failUpdate failDelete failInsert : Bool) : SubmitEffects :=
  if failUpdate then
    { db := db, writes := [], errorToast := true, successToast := false,
      navigatedTo := none, fieldErrors := [] }
  else
    let db1 := applyHeaderUpdate db oid d
    if failDelete then
      { db := db1, writes := [.updateOrder], errorToast := true, successToast := false,
        navigatedTo := none, fieldErrors := [] }
    else
      let db2 := deleteOrderItems db1 oid
      if failInsert then
        { db := db2, writes := [.updateOrder, .deleteItems], errorToast := true,
          successToast := false, navigatedTo := none, fieldErrors := [] }
      else
        { db := insertOrderItems db2 (newItemRows oid d.order_items ids)
          writes := [.updateOrder, .deleteItems, .insertItems]
          errorToast := false, successToast := true
          navigatedTo := some "/dashboard/orders", fieldErrors := [] }

/-- Validity of one line item under `orderSchema`: non-empty product name
(`z.string().min(1)`), quantity ≥ 1 (`z.number().min(1)`), unit price ≥ 0
(`z.number().min(0)`); `id`, `model`, `size` and `meters` are optional and
unconstrained. -/
def itemValid (it : OrderItemForm) : Bool :=
  decide (1 ≤ it.product_name.length) &&
  decide (1 ≤ it.quantity) &&
  decide (0 ≤ it.unit_price)

/-- Membership of a status string in `z.enum(['pending', 'completed',
'cancelled'])`. -/
def statusInEnum (s : String) : Bool :=
  decide (s = "pending") || decide (s = "completed") || decide (s = "cancelled")

/-- Validity of the whole form under `orderSchema`: customer name and phone
non-empty, status in the enumeration, the four surcharges ≥ 0, and every
line item valid. The `order_items` array itself carries no length
constraint. -/
def orderSchemaValid (d : OrderFormData) : Bool :=
  decide (1 ≤ d.customer_name.length) &&
  decide (1 ≤ d.customer_phone.length) &&
  statusInEnum d.status &&
  decide (0 ≤ d.fabric_price) &&
  decide (0 ≤ d.tailoring_price) &&
  decide (0 ≤ d.extra_costs) &&
  decide (0 ≤ d.tax_amount) &&
  d.order_items.all itemValid

/-- Default zod message for a violated `z.number().min(0)` without a custom
message. -/
def minZeroMsg : String := "Number must be greater than or equal to 0"

/-- Default zod message for a value outside `z.enum([...])`. -/
def enumMsg : String := "Invalid enum value"

/-- Field-level errors reported for one line item, keyed by its field path. -/
def itemFieldErrors (i : Nat) (it : OrderItemForm) : List (String × String) :=
  (if 1 ≤ it.product_name.length then []
    else [("order_items." ++ toString i ++ ".product_name", "اسم المنتج مطلوب")]) ++
  (if 1 ≤ it.quantity then []
    else [("order_items." ++ toString i ++ ".quantity", "الكمية مطلوبة")]) ++
  (if 0 ≤ it.unit_price then []
    else [("order_items." ++ toString i ++ ".unit_price", "السعر مطلوب")])

/-- The field-level errors the resolver reports for a form value, keyed by
field path, with the messages declared in `orderSchema`. -/
def fieldErrorsOf (d : OrderFormData) : List (String × String) :=
  (if 1 ≤ d.customer_name.length then [] else [("customer_name", "اسم العميل مطلوب")]) ++
  (if 1 ≤ d.customer_phone.length then [] else [("customer_phone", "رقم الهاتف مطلوب")]) ++
  (if statusInEnum d.status then [] else [("status", enumMsg)]) ++
  (if 0 ≤ d.fabric_price then [] else [("fabric_price", minZeroMsg)]) ++
  (if 0 ≤ d.tailoring_price then [] else [("tailoring_price", minZeroMsg)]) ++
  (if 0 ≤ d.extra_costs then [] else [("extra_costs", minZeroMsg)]) ++
  (if 0 ≤ d.tax_amount then [] else [("tax_amount", minZeroMsg)]) ++
  (d.order_items.enum.map (fun p => itemFieldErrors p.1 p.2)).flatten

/-- `form.handleSubmit(onSubmit)`: the resolver validates the form values
against `orderSchema`; on success `onSubmit` runs, otherwise no network call
is made and the field-level errors are reported. -/
def handleSubmit (db : DB) (oid : String) (d : OrderFormData) (ids : List String)
    (failUpdate failDelete failInsert : Bool) : SubmitEffects :=
  if orderSchemaValid d then
    onSubmit db oid d ids failUpdate failDelete failInsert
  else
    { db := db, writes := [], errorToast := false, successToast := false,
      navigatedTo := none, fieldErrors := fieldErrorsOf d }

/-- C2: for every valid submitted order form, submission applies exactly the
three writes in order — header update, delete of the order's item rows, then
insert of one row per line item with `total_price` recomputed as
`quantity * unit_price` — and a failing step applies nothing itself, skips
the remaining steps, surfaces the destructive failure toast, and undoes
nothing already applied. -/
theorem c2_submit_protocol (db : DB) (oid : String) (d : OrderFormData)
    (ids : List String) (f1 f2 f3 : Bool) (hv : orderSchemaValid d = true) :
    (f1 = false → f2 = false → f3 = false →
      handleSubmit db oid d ids f1 f2 f3 =
        { db := insertOrderItems (deleteOrderItems (applyHeaderUpdate db oid d) oid)
            (newItemRows oid d.order_items ids)
          writes := [.updateOrder, .deleteItems, .insertItems]
          errorToast := false, successToast := true
          navigatedTo := some "/dashboard/orders", fieldErrors := [] }) ∧
    (f1 = true →
      handleSubmit db oid d ids f1 f2 f3 =
        { db := db, writes := [], errorToast := true, successToast := false,
          navigatedTo := none, fieldErrors := [] }) ∧
    (f1 = false → f2 = true →
      handleSubmit db oid d ids f1 f2 f3 =
        { db := applyHeaderUpdate db oid d, writes := [.updateOrder],
          errorToast := true, successToast := false,
          navigatedTo := none, fieldErrors := [] }) ∧
    (f1 = false → f2 = false → f3 = true →
      handleSubmit db oid d ids f1 f2 f3 =
        { db := deleteOrderItems (applyHeaderUpdate db oid d) oid
          writes := [.updateOrder, .deleteItems]
          errorToast := true, successToast := false
          navigatedTo := none, fieldErrors := [] }) ∧
    (∀ r ∈ newItemRows oid d.order_items ids, r.total_price = r.quantity * r.unit_price) := by
  refine ⟨?_, ?_, ?_, ?_, ?_⟩
  · intro h1 h2 h3
    subst h1; subst h2; subst h3
    simp [handleSubmit, hv, onSubmit]
  · intro h1
    subst h1
    simp [handleSubmit, hv, onSubmit]
  · intro h1 h2
    subst h1; subst h2
    simp [handleSubmit, hv, onSubmit]
  · intro h1 h2 h3
    subst h1; subst h2; subst h3
    simp [handleSubmit, hv, onSubmit]
  · intro r hr
    unfold newItemRows at hr
    rcases List.mem_map.mp hr with ⟨p, _, rfl⟩
    rfl

/-- A concrete stored order row used in witnesses. -/
def exampleOrderRow : OrderRow :=
  { id := "o1", order_number := "1001", customer_name := "old name",
    customer_phone := "111", status := some "pending",
    fabric_price := none, tailoring_price := none, extra_costs := none,
    tax_amount := none, total_pieces := none, total_price := 20,
    notes := none }

/-- A concrete stored item row belonging to `exampleOrderRow`. -/
def exampleItemRow : ItemRow :=
  { id := "i1", order_id := some "o1", product_id := none,
    product_name := "Shirt", model := none, size := some "L",
    quantity := 2, meters := none, unit_price := 10, total_price := 20 }

/-- A concrete store holding one order with one item row. -/
def exampleDB : DB := { orders := [exampleOrderRow], order_items := [exampleItemRow] }

/-- A concrete valid form value over the worked example's items. -/
def exampleForm : OrderFormData :=
  { customer_name := "c", customer_phone := "ph", status := "pending",
    fabric_price := 3, tailoring_price := 2, extra_costs := 0, tax_amount := 1,
    notes := some "", order_items := exampleItems }

theorem exampleForm_valid : orderSchemaValid exampleForm = true := by decide

/-- Witness for C2: submitting the concrete valid form when the item-delete
step fails applies only the header update and shows the failure toast. -/
theorem c2_submit_protocol_witness :
    handleSubmit exampleDB "o1" exampleForm ["n1", "n2"] false true false =
      { db := applyHeaderUpdate exampleDB "o1" exampleForm, writes := [.updateOrder],
        errorToast := true, successToast := false,
        navigatedTo := none, fieldErrors := [] } :=
  (c2_submit_protocol exampleDB "o1" exampleForm ["n1", "n2"] false true false
    exampleForm_valid).2.2.1 rfl rfl

/-- C3: if the header update succeeds and the item-delete step fails, the
`order_items` table is exactly the pre-edit set while every stored header
row of the edited order carries the newly submitted values. -/
theorem c3_header_new_items_pre_edit (db : DB) (oid : String) (d : OrderFormData)
    (ids : List String) (f3 : Bool) :
    (onSubmit db oid d ids false true f3).db.order_items = db.order_items ∧
    ∀ r ∈ (onSubmit db oid d ids false true f3).db.orders, r.id = oid →
      r.customer_name = d.customer_name ∧
      r.customer_phone = d.customer_phone ∧
      r.status = some d.status ∧
      r.fabric_price = some d.fabric_price ∧
      r.tailoring_price = some d.tailoring_price ∧
      r.extra_costs = some d.extra_costs ∧
      r.tax_amount = some d.tax_amount ∧
      r.total_pieces = some (totalPieces d.order_items) ∧
      r.total_price = totalPrice d.order_items (some d.fabric_price)
        (some d.tailoring_price) (some d.extra_costs) (some d.tax_amount) := by
  constructor
  · simp [onSubmit, applyHeaderUpdate]
  · intro r hr hid
    simp only [onSubmit, Bool.false_eq_true, if_false, if_true, applyHeaderUpdate] at hr
    rcases List.mem_map.mp hr with ⟨r0, _, rfl⟩
    by_cases h0 : r0.id = oid
    · simp [h0, updatedHeader]
    · simp only [if_neg h0] at hid ⊢
      exact absurd hid h0

/-- Witness for C3 at the concrete store and form: the item rows survive the
failed delete unchanged, and the stored header row carries the new customer
name. -/
theorem c3_header_new_items_pre_edit_witness :
    (onSubmit exampleDB "o1" exampleForm [] false true false).db.order_items =
      exampleDB.order_items ∧
    (updatedHeader exampleOrderRow exampleForm).customer_name = exampleForm.customer_name := by
  constructor
  · exact (c3_header_new_items_pre_edit exampleDB "o1" exampleForm [] false).1
  · exact ((c3_header_new_items_pre_edit exampleDB "o1" exampleForm [] false).2
      (updatedHeader exampleOrderRow exampleForm)
      (by simp [onSubmit, applyHeaderUpdate, exampleDB, exampleOrderRow]) rfl).1

/-- The item rows `fetchOrder` reads for an order:
`supabase.from('order_items').select('*').eq('order_id', id)`. -/
def itemsOfOrder (db : DB) (oid : String) : List ItemRow :=
  db.order_items.filter (fun r => decide (r.order_id = some oid))

/-- JS `Number(x)` on a value typed number-or-null: `null` coerces to `0`. -/
def jsNumberNullable (x : Option ℚ) : ℚ :=
  match x with
  | none => 0
  | some v => v

/-- The per-item seeding `fetchOrder` performs on a fetched item row:
`{ id, product_name, model: item.model || '', size: item.size || '',
quantity, meters: Number(item.meters) || 0, unit_price: Number(item.unit_price) }`. -/
def seedItemForm (r : ItemRow) : OrderItemForm :=
  { id := some r.id
    product_name := r.product_name
    model := some (jsOrStr r.model "")
    size := some (jsOrStr r.size "")
    quantity := r.quantity
    meters := some (jsOrQ (some (jsNumberNullable r.meters)) 0)
    unit_price := r.unit_price }

/-- The full item list seeded into the form by `fetchOrder`. -/
def seedItems (rows : List ItemRow) : List OrderItemForm := rows.map seedItemForm

/-- The semantic content of a stored item row: its
`(product_name, quantity, unit_price)` triple. -/
def rowTriple (r : ItemRow) : String × ℚ × ℚ := (r.product_name, r.quantity, r.unit_price)

theorem filter_not_filter_eq_nil {α : Type} (p : α → Bool) (l : List α) :
    (l.filter (fun a => !(p a))).filter p = [] := by
  induction l with
  | nil => rfl
  | cons x xs ih =>
    by_cases h : p x = true <;> simp [List.filter_cons, h, ih]

theorem newItemRows_order_id (oid : String) (items : List OrderItemForm)
    (ids : List String) :
    ∀ r ∈ newItemRows oid items ids, r.order_id = some oid := by
  intro r hr
  unfold newItemRows at hr
  rcases List.mem_map.mp hr with ⟨p, _, rfl⟩
  rfl

theorem itemsOfOrder_after_submit (db : DB) (oid : String) (d : OrderFormData)
    (ids : List String) :
    itemsOfOrder (onSubmit db oid d ids false false false).db oid =
      newItemRows oid d.order_items ids := by
  unfold itemsOfOrder
  simp only [onSubmit, Bool.false_eq_true, if_false, insertOrderItems,
    deleteOrderItems, applyHeaderUpdate]
  rw [List.filter_append, filter_not_filter_eq_nil, List.nil_append]
  exact List.filter_eq_self.mpr (fun r hr => by
    simp [newItemRows_order_id oid d.order_items ids r hr])

theorem map_rowTriple_newItemRows (oid : String) :
    ∀ (l : List OrderItemForm) (ids : List String), l.length ≤ ids.length →
      (newItemRows oid l ids).map rowTriple =
        l.map (fun it => (it.product_name, it.quantity, it.unit_price)) := by
  intro l
  induction l with
  | nil =>
    intro ids _
    rfl
  | cons x xs ih =>
    intro ids hlen
    cases ids with
    | nil => exact absurd hlen (by simp)
    | cons i is =>
      have htail := ih is (by simpa using hlen)
      simp only [newItemRows, List.zip_cons_cons, List.map_cons] at htail ⊢
      rw [htail]
      rfl

/-- C4: loading an order into the form (the `fetchOrder` seeding) and
submitting with the item set unchanged leaves the persisted item rows of the
order semantically equivalent to the originals: the multiset of
`(product_name, quantity, unit_price)` triples is unchanged even though row
identifiers are regenerated. -/
theorem c4_round_trip_preserves_triples (db : DB) (oid : String)
    (d : OrderFormData) (ids : List String)
    (hitems : d.order_items = seedItems (itemsOfOrder db oid))
    (hlen : (itemsOfOrder db oid).length ≤ ids.length) :
    ((itemsOfOrder (onSubmit db oid d ids false false false).db oid).map rowTriple :
        Multiset (String × ℚ × ℚ)) =
      ((itemsOfOrder db oid).map rowTriple : Multiset (String × ℚ × ℚ)) := by
  have hlist : (itemsOfOrder (onSubmit db oid d ids false false false).db oid).map rowTriple =
      (itemsOfOrder db oid).map rowTriple := by
    rw [itemsOfOrder_after_submit]
    rw [map_rowTriple_newItemRows oid d.order_items ids
      (by rw [hitems]; unfold seedItems; rw [List.length_map]; exact hlen)]
    rw [hitems]
    unfold seedItems
    rw [List.map_map]
    apply List.map_congr_left
    intro r _
    rfl
  exact congrArg _ hlist

/-- The form value obtained by seeding the concrete order of `exampleDB`
without any edit. -/
def exampleRoundTripForm : OrderFormData :=
  { customer_name := "c", customer_phone := "p", status := "pending",
    fabric_price := 0, tailoring_price := 0, extra_costs := 0, tax_amount := 0,
    notes := none, order_items := seedItems (itemsOfOrder exampleDB "o1") }

/-- Witness for C4 at the concrete store: an unchanged-item resubmission of
the seeded form preserves the item-triple multiset. -/
theorem c4_round_trip_preserves_triples_witness :
    ((itemsOfOrder (onSubmit exampleDB "o1" exampleRoundTripForm ["n1"]
        false false false).db "o1").map rowTriple :
        Multiset (String × ℚ × ℚ)) =
      ((itemsOfOrder exampleDB "o1").map rowTriple : Multiset (String × ℚ × ℚ)) :=
  c4_round_trip_preserves_triples exampleDB "o1" exampleRoundTripForm ["n1"] rfl
    (by decide)

/-- The guard on the item remove button: it is rendered only when
`fields.length > 1`. -/
def removeGuard (numFields : Nat) : Bool := decide (numFields > 1)

/-- A form value with a valid header and an empty line-item list. -/
def exampleEmptyItemsForm : OrderFormData :=
  { customer_name := "c", customer_phone := "p", status := "pending",
    fabric_price := 0, tailoring_price := 0, extra_costs := 0, tax_amount := 0,
    notes := none, order_items := [] }

/-- Counterexample to C5 as stated: `orderSchema` accepts a form whose
line-item list is empty, so validation does not require that at least one
line item remain. -/
theorem c5_counterexample_empty_items_accepted :
    orderSchemaValid exampleEmptyItemsForm = true ∧
    exampleEmptyItemsForm.order_items = [] := by
  constructor
  · decide
  · rfl

/-- C5 (amended): validation requires of every line item quantity ≥ 1, unit
price ≥ 0 and a non-empty product name, with meters, model and size
unconstrained, but imposes no minimum item count — a valid form stays valid
with its item list emptied; only the UI remove button is guarded, and only
while more than one item is present. -/
theorem c5_item_validation (d : OrderFormData) (hv : orderSchemaValid d = true) :
    (∀ it ∈ d.order_items,
      1 ≤ it.quantity ∧ 0 ≤ it.unit_price ∧ 1 ≤ it.product_name.length) ∧
    orderSchemaValid { d with order_items := [] } = true ∧
    (∀ (it : OrderItemForm) (m : Option ℚ) (mo s : Option String),
      itemValid { it with meters := m, model := mo, size := s } = itemValid it) ∧
    removeGuard 1 = false ∧ removeGuard 2 = true := by
  unfold orderSchemaValid at hv
  simp only [Bool.and_eq_true, List.all_eq_true, decide_eq_true_eq] at hv
  obtain ⟨⟨⟨⟨⟨⟨⟨hname, hphone⟩, hst⟩, hf⟩, ht⟩, he⟩, hx⟩, hitems⟩ := hv
  refine ⟨?_, ?_, ?_, by decide, by decide⟩
  · intro it hit
    have hi := hitems it hit
    unfold itemValid at hi
    simp only [Bool.and_eq_true, decide_eq_true_eq] at hi
    exact ⟨hi.1.2, hi.2, hi.1.1⟩
  · unfold orderSchemaValid
    simp only [Bool.and_eq_true, List.all_eq_true, decide_eq_true_eq]
    exact ⟨⟨⟨⟨⟨⟨⟨hname, hphone⟩, hst⟩, hf⟩, ht⟩, he⟩, hx⟩, by intro it hit; cases hit⟩
  · intro it m mo s
    rfl

/-- Witness for C5 (amended) at the concrete valid form. -/
theorem c5_item_validation_witness :
    (∀ it ∈ exampleForm.order_items,
      1 ≤ it.quantity ∧ 0 ≤ it.unit_price ∧ 1 ≤ it.product_name.length) ∧
    orderSchemaValid { exampleForm with order_items := [] } = true ∧
    (∀ (it : OrderItemForm) (m : Option ℚ) (mo s : Option String),
      itemValid { it with meters := m, model := mo, size := s } = itemValid it) ∧
    removeGuard 1 = false ∧ removeGuard 2 = true :=
  c5_item_validation exampleForm exampleForm_valid

/-- C8: submitting with an empty customer name is rejected locally: no write
is applied, the store is untouched, and a field-level error is reported for
the customer-name field with the schema's message. -/
theorem c8_empty_customer_name_rejected (db : DB) (oid : String)
    (d : OrderFormData) (ids : List String) (f1 f2 f3 : Bool)
    (hname : d.customer_name = "") :
    handleSubmit db oid d ids f1 f2 f3 =
      { db := db, writes := [], errorToast := false, successToast := false,
        navigatedTo := none, fieldErrors := fieldErrorsOf d } ∧
    ("customer_name", "اسم العميل مطلوب") ∈
      (handleSubmit db oid d ids f1 f2 f3).fieldErrors := by
  have hlen : d.customer_name.length = 0 := by rw [hname]; rfl
  have hvalid : orderSchemaValid d = false := by
    unfold orderSchemaValid
    rw [hlen]
    simp
  have hout : handleSubmit db oid d ids f1 f2 f3 =
      { db := db, writes := [], errorToast := false, successToast := false,
        navigatedTo := none, fieldErrors := fieldErrorsOf d } := by
    simp [handleSubmit, hvalid]
  refine ⟨hout, ?_⟩
  rw [hout]
  unfold fieldErrorsOf
  rw [hlen]
  simp

/-- The concrete valid form with its customer name blanked. -/
def exampleNoNameForm : OrderFormData := { exampleForm with customer_name := "" }

/-- Witness for C8 at the concrete form with a blank customer name. -/
theorem c8_empty_customer_name_rejected_witness :
    handleSubmit exampleDB "o1" exampleNoNameForm [] false false false =
      { db := exampleDB, writes := [], errorToast := false, successToast := false,
        navigatedTo := none, fieldErrors := fieldErrorsOf exampleNoNameForm } ∧
    ("customer_name", "اسم العميل مطلوب") ∈
      (handleSubmit exampleDB "o1" exampleNoNameForm [] false false false).fieldErrors :=
  c8_empty_customer_name_rejected exampleDB "o1" exampleNoNameForm [] false false false rfl

/-- The badge visual variants of the UI component library. -/
inductive BadgeVariant where
  | default : BadgeVariant
  | secondary : BadgeVariant
  | destructive : BadgeVariant
  | outline : BadgeVariant
deriving DecidableEq

/-- The `variants` lookup table of `getStatusBadge`: three defined keys,
`undefined` (`none`) otherwise. -/
def statusVariants (s : String) : Option BadgeVariant :=
  if s = "pending" then some .outline
  else if s = "completed" then some .default
  else if s = "cancelled" then some .destructive
  else none

/-- The `labels` lookup table of `getStatusBadge`: three defined keys with
the localized labels, `undefined` (`none`) otherwise. -/
def statusLabels (s : String) : Option String :=
  if s = "pending" then some "قيد التنفيذ"
  else if s = "completed" then some "مكتمل"
  else if s = "cancelled" then some "ملغي"
  else none

/-- `getStatusBadge`: a badge with variant `variants[status] || "secondary"`
and label `labels[status] || status`. -/
def getStatusBadge (status : String) : BadgeVariant × String :=
  ((statusVariants status).getD .secondary, jsOrStr (statusLabels status) status)

/-- C7: the badge renderer is total — every status outside the three defined
keys renders with the neutral `secondary` variant and falls back to the raw
status value as its label — while `pending` maps to the outlined variant
with the "in progress" label, `completed` to the solid default variant with
the "complete" label, and `cancelled` to the destructive variant with the
"cancelled" label. -/
theorem c7_status_badge (s : String) (h1 : s ≠ "pending") (h2 : s ≠ "completed")
    (h3 : s ≠ "cancelled") :
    getStatusBadge s = (BadgeVariant.secondary, s) ∧
    getStatusBadge "pending" = (BadgeVariant.outline, "قيد التنفيذ") ∧
    getStatusBadge "completed" = (BadgeVariant.default, "مكتمل") ∧
    getStatusBadge "cancelled" = (BadgeVariant.destructive, "ملغي") := by
  refine ⟨?_, by decide, by decide, by decide⟩
  unfold getStatusBadge statusVariants statusLabels jsOrStr
  simp [h1, h2, h3]

/-- Witness for C7 at the unrecognized stored status `"shipped"`. -/
theorem c7_status_badge_witness :
    getStatusBadge "shipped" = (BadgeVariant.secondary, "shipped") ∧
    getStatusBadge "pending" = (BadgeVariant.outline, "قيد التنفيذ") ∧
    getStatusBadge "completed" = (BadgeVariant.default, "مكتمل") ∧
    getStatusBadge "cancelled" = (BadgeVariant.destructive, "ملغي") :=
  c7_status_badge "shipped" (by decide) (by decide) (by decide)

/-- A row of the `orders` projection `select('total_price, status')` used by
the dashboard statistics. -/
structure StatsOrderRow where
  total_price : ℚ
  status : Option String
deriving DecidableEq

/-- The dashboard statistics state. -/
structure Stats where
  totalOrders : Nat
  totalRevenue : ℚ
  totalCustomers : Nat
  pendingOrders : Nat
  completedOrders : Nat
deriving DecidableEq

/-- `fetchStats`: `totalOrders = orders.length`, `totalRevenue` summed by
`reduce`, `totalCustomers = customers?.length || 0`, and the pending and
completed counts by `filter(...).length` on the status column. -/
def fetchStats (orders : List StatsOrderRow) (customers : Option (List String)) : Stats :=
  { totalOrders := orders.length
    totalRevenue := orders.foldl (fun sum order => sum + order.total_price) 0
    totalCustomers := match customers with
      | some cs => cs.length
      | none => 0
    pendingOrders := (orders.filter (fun o => decide (o.status = some "pending"))).length
    completedOrders := (orders.filter (fun o => decide (o.status = some "completed"))).length }

theorem countP_pending_add_completed_le (l : List StatsOrderRow) :
    l.countP (fun o => decide (o.status = some "pending")) +
      l.countP (fun o => decide (o.status = some "completed")) ≤ l.length := by
  induction l with
  | nil => simp
  | cons x xs ih =>
    by_cases h : x.status = some "pending"
    · have h2 : ¬ x.status = some "completed" := by rw [h]; simp
      simp [List.countP_cons, h, h2]
      omega
    · by_cases h2 : x.status = some "completed" <;>
        simp [List.countP_cons, h, h2] <;> omega

/-- C10: for every fetched set of order rows, the dashboard statistics
satisfy `totalOrders = number of rows`, `totalRevenue = sum of total_price`,
the pending and completed counters count exactly the rows with the matching
status, and `pendingOrders + completedOrders ≤ totalOrders`. -/
theorem c10_dashboard_stats (orders : List StatsOrderRow)
    (customers : Option (List String)) :
    (fetchStats orders customers).totalOrders = orders.length ∧
    (fetchStats orders customers).totalRevenue =
      (orders.map (fun o => o.total_price)).sum ∧
    (fetchStats orders customers).pendingOrders =
      orders.countP (fun o => decide (o.status = some "pending")) ∧
    (fetchStats orders customers).completedOrders =
      orders.countP (fun o => decide (o.status = some "completed")) ∧
    (fetchStats orders customers).pendingOrders +
      (fetchStats orders customers).completedOrders ≤
      (fetchStats orders customers).totalOrders := by
  have hp : (fetchStats orders customers).pendingOrders =
      orders.countP (fun o => decide (o.status = some "pending")) := by
    unfold fetchStats
    exact (List.countP_eq_length_filter _ _).symm
  have hc : (fetchStats orders customers).completedOrders =
      orders.countP (fun o => decide (o.status = some "completed")) := by
    unfold fetchStats
    exact (List.countP_eq_length_filter _ _).symm
  refine ⟨rfl, ?_, hp, hc, ?_⟩
  · unfold fetchStats
    rw [foldl_add_eq_sum (fun o => o.total_price) orders 0, zero_add]
  · rw [hp, hc]
    exact countP_pending_add_completed_le orders

/-- The header columns of a fetched `orders` row as runtime values, as read
by `fetchOrder` before coercion. -/
structure RawOrderRow where
  customer_name : String
  customer_phone : String
  status : String
  fabric_price : FetchedVal
  tailoring_price : FetchedVal
  extra_costs : FetchedVal
  tax_amount : FetchedVal
  notes : Option String
deriving DecidableEq

/-- The header part of the form state seeded by `form.reset` in
`fetchOrder`. -/
structure SeededHeader where
  customer_name : String
  customer_phone : String
  status : String
  fabric_price : ℚ
  tailoring_price : ℚ
  extra_costs : ℚ
  tax_amount : ℚ
  notes : String
deriving DecidableEq

/-- The header seeding of `fetchOrder`: each monetary column passes through
`Number(x) || 0`, notes through `x || ''`. -/
def seedHeaderRaw (r : RawOrderRow) : SeededHeader :=
  { customer_name := r.customer_name
    customer_phone := r.customer_phone
    status := r.status
    fabric_price := jsOrQ (jsNumberVal r.fabric_price) 0
    tailoring_price := jsOrQ (jsNumberVal r.tailoring_price) 0
    extra_costs := jsOrQ (jsNumberVal r.extra_costs) 0
    tax_amount := jsOrQ (jsNumberVal r.tax_amount) 0
    notes := jsOrStr r.notes "" }

/-- A fetched `order_items` row as runtime values, as read by `fetchOrder`
before coercion. -/
structure RawItemRow where
  id : String
  product_name : String
  model : Option String
  size : Option String
  quantity : ℚ
  meters : FetchedVal
  unit_price : FetchedVal
deriving DecidableEq

/-- One item of the form state seeded by `form.reset` in `fetchOrder`;
`unit_price` is `Number(item.unit_price)` with no fallback, so it can be NaN
(`none`). -/
structure SeededRawItem where
  id : Option String
  product_name : String
  model : String
  size : String
  quantity : ℚ
  meters : ℚ
  unit_price : Option ℚ
deriving DecidableEq

/-- The per-item seeding of `fetchOrder` on runtime values:
`meters: Number(item.meters) || 0` but `unit_price: Number(item.unit_price)`. -/
def seedItemRaw (r : RawItemRow) : SeededRawItem :=
  { id := some r.id
    product_name := r.product_name
    model := jsOrStr r.model ""
    size := jsOrStr r.size ""
    quantity := r.quantity
    meters := jsOrQ (jsNumberVal r.meters) 0
    unit_price := jsNumberVal r.unit_price }

/-- A fetched-row value that is absent or a non-numeric string. -/
def missingOrNonNumeric (v : FetchedVal) : Prop :=
  v = .missing ∨ ∃ s, v = .nonNumericStr s

theorem jsOrQ_jsNumberVal_zero (v : FetchedVal) (hv : missingOrNonNumeric v) :
    jsOrQ (jsNumberVal v) 0 = 0 := by
  rcases hv with h | ⟨s, h⟩ <;> subst h <;> rfl

/-- An item row whose stored `unit_price` is a non-numeric string. -/
def rawItemBadPrice : RawItemRow :=
  { id := "i9", product_name := "P", model := none, size := none,
    quantity := 1, meters := .nullVal, unit_price := .nonNumericStr "abc" }

/-- Counterexample to C6 as stated: for an item row whose `unit_price` is
non-numeric, the seeded `unit_price` is NaN (`none`), not zero — the code
applies `Number()` to `unit_price` without the `|| 0` fallback. -/
theorem c6_counterexample_unit_price_nan :
    missingOrNonNumeric rawItemBadPrice.unit_price ∧
    ¬ ((seedItemRaw rawItemBadPrice).unit_price = some 0) :=
  ⟨Or.inr ⟨"abc", rfl⟩, by decide⟩

/-- C6 (amended): every header monetary field (`fabric_price`,
`tailoring_price`, `extra_costs`, `tax_amount`) and each item's `meters`
that is missing or non-numeric in the fetched rows is seeded as zero via
`Number(x) || 0`; an item's `unit_price`, however, is coerced with a bare
`Number()`: a stored `null` seeds as zero and a number as itself, but a
missing or non-numeric `unit_price` seeds as NaN rather than zero. -/
theorem c6_seeding_coercions (h : RawOrderRow) (it : RawItemRow) :
    (missingOrNonNumeric h.fabric_price → (seedHeaderRaw h).fabric_price = 0) ∧
    (missingOrNonNumeric h.tailoring_price → (seedHeaderRaw h).tailoring_price = 0) ∧
    (missingOrNonNumeric h.extra_costs → (seedHeaderRaw h).extra_costs = 0) ∧
    (missingOrNonNumeric h.tax_amount → (seedHeaderRaw h).tax_amount = 0) ∧
    (missingOrNonNumeric it.meters → (seedItemRaw it).meters = 0) ∧
    (missingOrNonNumeric it.unit_price → (seedItemRaw it).unit_price = none) ∧
    (it.unit_price = .nullVal → (seedItemRaw it).unit_price = some 0) ∧
    (∀ q, it.unit_price = .num q → (seedItemRaw it).unit_price = some q) := by
  refine ⟨fun hv => jsOrQ_jsNumberVal_zero _ hv, fun hv => jsOrQ_jsNumberVal_zero _ hv,
    fun hv => jsOrQ_jsNumberVal_zero _ hv, fun hv => jsOrQ_jsNumberVal_zero _ hv,
    fun hv => jsOrQ_jsNumberVal_zero _ hv, ?_, ?_, ?_⟩
  · intro hv
    show jsNumberVal it.unit_price = none
    rcases hv with hm | ⟨s, hm⟩ <;> rw [hm] <;> rfl
  · intro hm
    show jsNumberVal it.unit_price = some 0
    rw [hm]
    rfl
  · intro q hm
    show jsNumberVal it.unit_price = some q
    rw [hm]
    rfl

/-- A header row with missing and non-numeric monetary columns. -/
def rawHeaderEx : RawOrderRow :=
  { customer_name := "n", customer_phone := "p", status := "pending",
    fabric_price := .missing, tailoring_price := .nonNumericStr "x",
    extra_costs := .missing, tax_amount := .nonNumericStr "y", notes := none }

/-- An item row with missing `meters` and a stored `null` `unit_price`. -/
def rawItemEx : RawItemRow :=
  { id := "i2", product_name := "Q", model := none, size := none,
    quantity := 1, meters := .missing, unit_price := .nullVal }

/-- Witness for C6 (amended) at concrete rows with missing and non-numeric
columns. -/
theorem c6_seeding_coercions_witness :
    (seedHeaderRaw rawHeaderEx).fabric_price = 0 ∧
    (seedHeaderRaw rawHeaderEx).tailoring_price = 0 ∧
    (seedHeaderRaw rawHeaderEx).extra_costs = 0 ∧
    (seedHeaderRaw rawHeaderEx).tax_amount = 0 ∧
    (seedItemRaw rawItemEx).meters = 0 ∧
    (seedItemRaw rawItemBadPrice).unit_price = none ∧
    (seedItemRaw rawItemEx).unit_price = some 0 :=
  ⟨(c6_seeding_coercions rawHeaderEx rawItemEx).1 (Or.inl rfl),
   (c6_seeding_coercions rawHeaderEx rawItemEx).2.1 (Or.inr ⟨"x", rfl⟩),
   (c6_seeding_coercions rawHeaderEx rawItemEx).2.2.1 (Or.inl rfl),
   (c6_seeding_coercions rawHeaderEx rawItemEx).2.2.2.1 (Or.inr ⟨"y", rfl⟩),
   (c6_seeding_coercions rawHeaderEx rawItemEx).2.2.2.2.1 (Or.inl rfl),
   (c6_seeding_coercions rawHeaderEx rawItemBadPrice).2.2.2.2.2.1 (Or.inr ⟨"abc", rfl⟩),
   (c6_seeding_coercions rawHeaderEx rawItemEx).2.2.2.2.2.2.1 rfl⟩
